import Mathlib

/-!
Verification of the theremin-ng control core against its specification.

The development shallowly embeds the three relevant source units:
* `HandTrackerService` (hand-tracker service: camera/landmarker lifecycle and
  the two-channel exponential smoother over fields `sx`, `sy`);
* `AudioService` (WebAudio backend: oscillator/gain graph lifecycle,
  MIDI-to-frequency conversion, ramped parameter updates, deferred teardown);
* `Theremin` (the component: per-frame loop, start/stop, mode switch).

Scalar state that the source keeps in JavaScript numbers is modelled over ℚ
where the claims are algebraic (smoothing, clamping, the MIDI mapping), and
over ℝ where a transcendental function is involved (the 2^(x/12) frequency
map).  Effectful calls (WebAudio node operations, event dispatch, scheduling)
are modelled as explicit action / effect traces returned alongside the new
state.
-/

/-- One smoothing step, as in the bodies of `HandTrackerService.smoothX` and
`smoothY`: `this.s· = this.s· * k + v * (1 - k)`. -/
def smoothStep (prev v k : ℚ) : ℚ := prev * k + v * (1 - k)

/-- State of `HandTrackerService`: the camera stream handle and the hand
landmarker (modelled as presence flags) and the two smoothing accumulators
`sx`, `sy`, both initialised to `0.5` in the source. -/
structure HandTrackerService where
  stream : Bool
  landmarker : Bool
  sx : ℚ
  sy : ℚ

/-- The service's initial state: no stream, no landmarker, `sx = sy = 0.5`. -/
def HandTrackerService.init : HandTrackerService :=
  { stream := false, landmarker := false, sx := 1/2, sy := 1/2 }

/-- `smoothX(v, k)`: updates the X accumulator by one EMA step and returns the
new value. -/
def HandTrackerService.smoothX (s : HandTrackerService) (v k : ℚ) :
    HandTrackerService × ℚ :=
  let nx := smoothStep s.sx v k
  ({ s with sx := nx }, nx)

/-- `smoothY(v, k)`: updates the Y accumulator by one EMA step and returns the
new value. -/
def HandTrackerService.smoothY (s : HandTrackerService) (v k : ℚ) :
    HandTrackerService × ℚ :=
  let ny := smoothStep s.sy v k
  ({ s with sy := ny }, ny)

/-- `stopCamera()`: stops the media tracks and clears the stream reference;
the smoothing accumulators are not touched. -/
def HandTrackerService.stopCamera (s : HandTrackerService) : HandTrackerService :=
  { s with stream := false }

/-- Iterating the smoother `n` times on one channel with a fixed raw input
`v` and factor `k`, from accumulator value `s0`. -/
def smoothIter (s0 v k : ℚ) : ℕ → ℚ
  | 0 => s0
  | n + 1 => smoothStep (smoothIter s0 v k n) v k

/-- `Math.max(0, Math.min(1, x))` from the gain mapping in `Theremin.loop`. -/
def clamp01 (x : ℚ) : ℚ := max 0 (min 1 x)

namespace Theremin

/-- The base MIDI note: the literal `40` in `const midi = 40 + (1 - sy) *
this.pitchRange` in `Theremin.loop` (the source hard-codes the base; the
other two mapping parameters `pitchRange` and `gainMax` are configurable
component fields). -/
def baseMidiNote : ℚ := 40

/-- The pitch half of the Parameter Mapper step of `Theremin.loop`:
`midi = 40 + (1 - sy) * this.pitchRange`. -/
def midiOf (sy pitchRange : ℚ) : ℚ := baseMidiNote + (1 - sy) * pitchRange

/-- The gain half of the Parameter Mapper step of `Theremin.loop`:
`g = Math.max(0, Math.min(1, sx)) * this.gainMax`. -/
def gainOf (sx gainMax : ℚ) : ℚ := clamp01 sx * gainMax

end Theremin

/-- C1: the Parameter Mapper step computes
`midiNote = baseMidiNote + (1 - sy) * pitchRangeSemitones` (with the source's
base note, the literal 40) and `gain = clamp(sx, 0, 1) * gainMax`; at `sy = 1`
the note is the base, at `sy = 0` it is base + range, at `sx ≤ 0` the gain is
0, and at `sx ≥ 1` the gain is `gainMax`. -/
theorem Theremin.mapper_midi_gain_spec (sx sy pitchRange gainMax : ℚ) :
    Theremin.midiOf sy pitchRange
      = Theremin.baseMidiNote + (1 - sy) * pitchRange ∧
    Theremin.gainOf sx gainMax = clamp01 sx * gainMax ∧
    Theremin.midiOf 1 pitchRange = Theremin.baseMidiNote ∧
    Theremin.midiOf 0 pitchRange = Theremin.baseMidiNote + pitchRange ∧
    (sx ≤ 0 → Theremin.gainOf sx gainMax = 0) ∧
    (1 ≤ sx → Theremin.gainOf sx gainMax = gainMax) := by
  refine ⟨rfl, rfl, ?_, ?_, ?_, ?_⟩
  · simp [Theremin.midiOf]
  · simp [Theremin.midiOf]
  · intro h
    have h1 : min 1 sx = sx := min_eq_right (h.trans (by norm_num))
    simp [Theremin.gainOf, clamp01, h1, max_eq_left h]
  · intro h
    have h1 : min 1 sx = 1 := min_eq_left h
    simp [Theremin.gainOf, clamp01, h1]

/-- Witness for C1: the clamping corollaries at `sx = -1` and `sx = 2` with
`gainMax = 4/5`. -/
theorem Theremin.mapper_midi_gain_spec_witness :
    Theremin.gainOf (-1) (4/5) = 0 ∧ Theremin.gainOf 2 (4/5) = 4/5 :=
  ⟨(Theremin.mapper_midi_gain_spec (-1) 0 48 (4/5)).2.2.2.2.1 (by norm_num),
   (Theremin.mapper_midi_gain_spec 2 0 48 (4/5)).2.2.2.2.2 (by norm_num)⟩

/-- C2: `smoothX` / `smoothY` return `smoothed_prev * k + rawValue * (1 - k)`
where `smoothed_prev` is the corresponding accumulator before the call
(initially 0.5 on both channels), and at `k = 0` the call returns the raw
value regardless of the prior accumulator. -/
theorem HandTrackerService.smooth_spec (s : HandTrackerService) (v k : ℚ) :
    (s.smoothX v k).2 = s.sx * k + v * (1 - k) ∧
    (s.smoothY v k).2 = s.sy * k + v * (1 - k) ∧
    (s.smoothX v 0).2 = v ∧
    (s.smoothY v 0).2 = v ∧
    HandTrackerService.init.sx = 1/2 ∧
    HandTrackerService.init.sy = 1/2 := by
  refine ⟨rfl, rfl, ?_, ?_, rfl, rfl⟩ <;>
    simp [HandTrackerService.smoothX, HandTrackerService.smoothY, smoothStep]

/-- C5: for `k ∈ [0, 0.95]`, iterating the smoother `n` times on a fixed
input `v` contracts the distance to `v` geometrically:
`|smoothed - v| ≤ k^n * |initial - v|`. -/
theorem smoothIter_contraction (s0 v k : ℚ) (n : ℕ)
    (hk0 : 0 ≤ k) (hk1 : k ≤ 19/20) :
    |smoothIter s0 v k n - v| ≤ k ^ n * |s0 - v| := by
  induction n with
  | zero => simp [smoothIter]
  | succ n ih =>
      have hstep : smoothIter s0 v k (n + 1) - v
          = k * (smoothIter s0 v k n - v) := by
        simp only [smoothIter, smoothStep]; ring
      calc |smoothIter s0 v k (n + 1) - v|
          = k * |smoothIter s0 v k n - v| := by
            rw [hstep, abs_mul, abs_of_nonneg hk0]
        _ ≤ k * (k ^ n * |s0 - v|) := by
            exact mul_le_mul_of_nonneg_left ih hk0
        _ = k ^ (n + 1) * |s0 - v| := by ring

/-- Witness for C5: from accumulator 0, constant input 1, `k = 1/2`, after 2
steps the distance to 1 is at most `(1/2)^2 * 1`. -/
theorem smoothIter_contraction_witness :
    (0 : ℚ) ≤ 1/2 ∧ (1/2 : ℚ) ≤ 19/20 ∧
    |smoothIter 0 1 (1/2) 2 - 1| ≤ (1/2) ^ 2 * |(0 : ℚ) - 1| :=
  ⟨by norm_num, by norm_num,
   smoothIter_contraction 0 1 (1/2) 2 (by norm_num) (by norm_num)⟩

/-- Oscillator waveform kinds (`OscillatorType`). -/
inductive Waveform
  | sine
  | square
  | sawtooth
  | triangle
  deriving DecidableEq

/-- State of `AudioService`.  In the source, `ctx`, `osc` and `gain` are
created together by `start()` and cleared together by `stop()`'s deferred
teardown, so one flag `ctx` models whether the audio graph exists; `oscType`,
`freq` and `gain` model the oscillator waveform and the current frequency and
gain targets. -/
structure AudioService where
  ctx : Bool
  oscType : Waveform
  freq : ℝ
  gain : ℝ

/-- `start(type)`: no-op if already started, else creates the graph with the
given waveform, frequency 220 and gain 0 (start muted). -/
def AudioService.start (s : AudioService) (type : Waveform) : AudioService :=
  if s.ctx then s else { ctx := true, oscType := type, freq := 220, gain := 0 }

/-- `setType(type)`: updates the oscillator waveform only if the graph
exists. -/
def AudioService.setType (s : AudioService) (type : Waveform) : AudioService :=
  if s.ctx then { s with oscType := type } else s

/-- `midiToFreq(n) = 440 * Math.pow(2, (n - 69) / 12)`. -/
noncomputable def AudioService.midiToFreq (n : ℝ) : ℝ :=
  440 * (2 : ℝ) ^ ((n - 69) / 12)

/-- `update(freq, g)`: no-op when the graph is not initialised; otherwise sets
the frequency target when `freq` is non-null and always sets the gain
target. -/
def AudioService.update (s : AudioService) (freq : Option ℝ) (g : ℝ) :
    AudioService :=
  if s.ctx then
    { s with freq := match freq with | some f => f | none => s.freq, gain := g }
  else s

/-- The observable WebAudio effects of `AudioService.stop`, each paired below
with the millisecond delay at which the source schedules it. -/
inductive AudioEffect
  | gainRampToZero
  | oscStop
  | oscDisconnect
  | gainDisconnect
  | ctxClose
  deriving DecidableEq

/-- `stop()`: no-op when no graph exists; otherwise ramps the gain toward 0
immediately (`setTargetAtTime(0, now, 0.03)`) and schedules the teardown
(`osc.stop`, `osc.disconnect`, `gain.disconnect`, `ctx.close`, clearing the
references) via `setTimeout(..., 120)`.  Returns the post-teardown state and
the emitted effects with their scheduled delays, in emission order. -/
def AudioService.stop (s : AudioService) :
    AudioService × List (ℕ × AudioEffect) :=
  if s.ctx then
    ({ s with ctx := false },
     [(0, .gainRampToZero), (120, .oscStop), (120, .oscDisconnect),
      (120, .gainDisconnect), (120, .ctxClose)])
  else (s, [])

/-- C3: the frequency map is exactly `440 * 2^((n - 69) / 12)` and the known
round trips hold exactly over the reals: `midiToFreq 69 = 440` and
`midiToFreq 57 = 220`. -/
theorem AudioService.midiToFreq_spec :
    (∀ n : ℝ, AudioService.midiToFreq n = 440 * (2 : ℝ) ^ ((n - 69) / 12)) ∧
    AudioService.midiToFreq 69 = 440 ∧
    AudioService.midiToFreq 57 = 220 := by
  refine ⟨fun n => rfl, ?_, ?_⟩
  · have h : ((69 : ℝ) - 69) / 12 = 0 := by norm_num
    rw [AudioService.midiToFreq, h, Real.rpow_zero, mul_one]
  · have h : ((57 : ℝ) - 69) / 12 = ((-1 : ℤ) : ℝ) := by norm_num
    rw [AudioService.midiToFreq, h, Real.rpow_intCast]
    norm_num

/-- C9: whenever the graph exists, `stop()` emits the gain ramp first, at
delay 0, and every teardown/release effect strictly after it in emission
order and at the strictly later delay 120 — the order is always
gain-then-release, never release-then-gain. -/
theorem AudioService.stop_gain_before_release (s : AudioService)
    (h : s.ctx = true) :
    (s.stop).2 = [(0, .gainRampToZero), (120, .oscStop), (120, .oscDisconnect),
      (120, .gainDisconnect), (120, .ctxClose)] ∧
    (s.stop).2.head? = some (0, .gainRampToZero) ∧
    (∀ e ∈ (s.stop).2, e.2 ≠ .gainRampToZero → 0 < e.1) ∧
    (s.stop).1.ctx = false := by
  rw [AudioService.stop, h]
  refine ⟨rfl, rfl, ?_, rfl⟩
  intro e he hne
  simp only [if_true, List.mem_cons, List.not_mem_nil, or_false] at he
  rcases he with h1 | h1 | h1 | h1 | h1 <;> subst h1 <;> simp at hne ⊢

/-- Witness for C9: the effect trace of `stop()` from a concrete active
state. -/
theorem AudioService.stop_gain_before_release_witness :
    (AudioService.ctx ⟨true, .sawtooth, 220, 0⟩ = true) ∧
    (AudioService.stop ⟨true, .sawtooth, 220, 0⟩).2.head?
      = some (0, .gainRampToZero) :=
  ⟨rfl, (AudioService.stop_gain_before_release ⟨true, .sawtooth, 220, 0⟩ rfl).2.1⟩

/-- C10: with no audio graph (before the first `start()`, or after `stop()`'s
teardown), `update` and `setType` return without effect and leave the state
unchanged; in particular the per-frame silence update `update(null, 0)` is a
harmless no-op once the graph is torn down. -/
theorem AudioService.update_noop_when_uninitialized (s : AudioService)
    (h : s.ctx = false) (freq : Option ℝ) (g : ℝ) (type : Waveform) :
    s.update freq g = s ∧ s.setType type = s ∧ s.update none 0 = s := by
  simp [AudioService.update, AudioService.setType, h]

/-- Witness for C10: the silence update and a waveform change on a concrete
torn-down state are no-ops. -/
theorem AudioService.update_noop_when_uninitialized_witness :
    (AudioService.ctx ⟨false, .sawtooth, 220, 0⟩ = false) ∧
    AudioService.update ⟨false, .sawtooth, 220, 0⟩ none 0
      = ⟨false, .sawtooth, 220, 0⟩ ∧
    AudioService.setType ⟨false, .sawtooth, 220, 0⟩ .square
      = ⟨false, .sawtooth, 220, 0⟩ :=
  ⟨rfl,
   (AudioService.update_noop_when_uninitialized ⟨false, .sawtooth, 220, 0⟩
      rfl none 0 .square).1,
   (AudioService.update_noop_when_uninitialized ⟨false, .sawtooth, 220, 0⟩
      rfl none 0 .square).2.1⟩

/-- `audioMode` values: `'web'` (Direct WebAudio backend) or `'strudel'`
(External Strudel backend). -/
inductive AudioMode
  | web
  | strudel
  deriving DecidableEq

/-- One normalized landmark point.  In `Theremin.loop` the tracked point is
`res.landmarks[0][8]` (the index fingertip); a frame's detection result is
modelled as `Option Point`, `none` when no landmark is present. -/
structure Point where
  x : ℚ
  y : ℚ

/-- State of the `Theremin` component: the configuration fields, the
session-visible readouts (`hands`, `freqDisp`, `midiDisp`, `gainPct`, with
the `'–'` idle sentinel of the display strings modelled as `none`), and the
injected tracker and audio services. -/
structure ThereminState where
  audioMode : AudioMode
  useFront : Bool
  waveform : Waveform
  smooth : ℚ
  gainMax : ℚ
  pitchRange : ℚ
  strudelRunning : Bool
  started : Bool
  hands : ℕ
  freqDisp : Option ℝ
  midiDisp : Option ℚ
  gainPct : ℤ
  tracker : HandTrackerService
  audio : AudioService

/-- The component's initial field values (`audioMode = 'web'`,
`useFront = true`, `waveform = 'sawtooth'`, `smooth = 0.75`,
`gainMax = 0.8`, `pitchRange = 48`, idle readouts, fresh services). -/
def Theremin.initState : ThereminState :=
  { audioMode := .web, useFront := true, waveform := .sawtooth,
    smooth := 3/4, gainMax := 4/5, pitchRange := 48,
    strudelRunning := false, started := false, hands := 0,
    freqDisp := none, midiDisp := none, gainPct := 0,
    tracker := HandTrackerService.init,
    audio := { ctx := false, oscType := .sawtooth, freq := 220, gain := 0 } }

/-- The externally visible calls made by `Theremin.start` / `Theremin.stop`,
in program order. -/
inductive ThereminAction
  | cancelFrame
  | audioStart (w : Waveform)
  | audioStop
  | cameraStart (front : Bool)
  | landmarkerInit
  | cameraStop
  | videoCleanup
  | canvasClear
  | scheduleLoop
  | alertStartFailure
  deriving DecidableEq

/-- `stop()`: clears `started`, cancels the scheduled frame, stops the audio
backend and the camera, cleans up the video element and canvas, and resets
the readouts to the idle sentinel.  The tracker's smoothing accumulators are
not touched. -/
def Theremin.stop (s : ThereminState) : ThereminState × List ThereminAction :=
  ({ s with started := false,
            audio := (s.audio.stop).1,
            tracker := s.tracker.stopCamera,
            hands := 0, freqDisp := none, midiDisp := none, gainPct := 0 },
   [.cancelFrame, .audioStop, .cameraStop, .videoCleanup, .canvasClear])

/-- `start()`: awaits `tracker.startCamera` then `tracker.initHandLandmarker`;
on success starts WebAudio when the mode is `'web'` (else stops it), sets
`started`, cancels any pending frame and schedules the loop.  A failure of
either tracker step (modelled by the two flags) jumps to the `catch` block,
which only shows an alert; none of the later statements run. -/
def Theremin.start (s : ThereminState) (cameraOk landmarkerOk : Bool) :
    ThereminState × List ThereminAction :=
  if cameraOk then
    let s1 := { s with tracker := { s.tracker with stream := true } }
    if landmarkerOk then
      let s2 := { s1 with tracker := { s1.tracker with landmarker := true } }
      let s3 := if s.audioMode = .web
        then { s2 with audio := s2.audio.start s.waveform }
        else { s2 with audio := (s2.audio.stop).1 }
      ({ s3 with started := true },
       [.cameraStart s.useFront, .landmarkerInit] ++
         (if s.audioMode = .web then [.audioStart s.waveform] else [.audioStop]) ++
         [.cancelFrame, .scheduleLoop])
    else (s1, [.cameraStart s.useFront, .alertStartFailure])
  else (s, [.alertStartFailure])

/-- The outputs of one `Theremin.loop` tick: the `window.thereminX/Y` writes,
the `window.thereminMode` write, the dispatched `'theremin'` custom events,
and the arguments of the `audio.update` calls made during the tick. -/
structure LoopOut where
  publishedXY : Option (ℚ × ℚ)
  publishedMode : AudioMode
  events : List (ℚ × ℚ × AudioMode)
  audioUpdates : List (Option ℝ × ℝ)

/-- One tick of `Theremin.loop` on a detection result.  With a landmark:
mirror X for the front camera, smooth both channels, publish the smoothed
coordinates and mode, map to MIDI note / frequency / gain, update WebAudio
(real values in `'web'` mode, an explicit silence update otherwise) and set
the readouts.  Without a landmark: one silence update `(none, 0)`, readouts
reset to the idle sentinel, smoother untouched. -/
noncomputable def Theremin.loop (s : ThereminState) (tip? : Option Point) :
    ThereminState × LoopOut :=
  match tip? with
  | some tip =>
    let rawX := if s.useFront then 1 - tip.x else tip.x
    let rawY := tip.y
    let k := s.smooth
    let p1 := s.tracker.smoothX rawX k
    let p2 := p1.1.smoothY rawY k
    let sx := p1.2
    let sy := p2.2
    let midi := Theremin.midiOf sy s.pitchRange
    let freq := AudioService.midiToFreq (midi : ℝ)
    let g := Theremin.gainOf sx s.gainMax
    let upd : Option ℝ × ℝ :=
      if s.audioMode = .web then (some freq, (g : ℝ)) else (none, 0)
    ({ s with hands := 1,
              tracker := p2.1,
              audio := s.audio.update upd.1 upd.2,
              freqDisp := some freq,
              midiDisp := some midi,
              gainPct := round (clamp01 sx * 100) },
     { publishedXY := some (sx, sy),
       publishedMode := s.audioMode,
       events := [(sx, sy, s.audioMode)],
       audioUpdates := [upd] })
  | none =>
    ({ s with hands := 0,
              audio := s.audio.update none 0,
              freqDisp := none, midiDisp := none, gainPct := 0 },
     { publishedXY := none,
       publishedMode := s.audioMode,
       events := [],
       audioUpdates := [(none, 0)] })

/-- The primitive steps of `Theremin.onAudioModeChange`, in program order:
publish the (already switched) mode, then start WebAudio / stop Strudel for
`'web'`, or stop WebAudio / start Strudel for `'strudel'`. -/
inductive SwitchEvent
  | publishMode (m : AudioMode)
  | audioStart
  | audioStop
  | strudelStart
  | strudelStop
  deriving DecidableEq

/-- `onAudioModeChange()` as the sequence of primitive steps it performs for
the new mode: `'web'` publishes, **starts WebAudio**, then stops Strudel;
`'strudel'` publishes, stops WebAudio, then starts Strudel. -/
def Theremin.onAudioModeChange (mode : AudioMode) : List SwitchEvent :=
  match mode with
  | .web => [.publishMode .web, .audioStart, .strudelStop]
  | .strudel => [.publishMode .strudel, .audioStop, .strudelStart]

/-- Which of the two synthesis backends are currently active (WebAudio
started / Strudel evaluated-and-started). -/
structure Backends where
  webActive : Bool
  strudelActive : Bool
  deriving DecidableEq

/-- The effect of one mode-switch step on backend activity. -/
def Backends.apply (b : Backends) : SwitchEvent → Backends
  | .publishMode _ => b
  | .audioStart => { b with webActive := true }
  | .audioStop => { b with webActive := false }
  | .strudelStart => { b with strudelActive := true }
  | .strudelStop => { b with strudelActive := false }

/-- All backend-activity states visited while a step sequence runs, the
initial and final states included. -/
def Backends.statesAlong (b : Backends) : List SwitchEvent → List Backends
  | [] => [b]
  | e :: es => b :: Backends.statesAlong (b.apply e) es

/-- C6: on a frame with no landmark, the tick makes exactly one audio update,
the explicit silence update `(none, 0)`, publishes no coordinates and no
event, resets the readouts to the idle sentinel, and leaves both smoothing
accumulators (indeed the whole tracker state) unchanged. -/
theorem Theremin.loop_noHand_spec (s : ThereminState) :
    (Theremin.loop s none).2.audioUpdates = [(none, 0)] ∧
    (Theremin.loop s none).2.publishedXY = none ∧
    (Theremin.loop s none).2.events = [] ∧
    (Theremin.loop s none).1.hands = 0 ∧
    (Theremin.loop s none).1.freqDisp = none ∧
    (Theremin.loop s none).1.midiDisp = none ∧
    (Theremin.loop s none).1.gainPct = 0 ∧
    (Theremin.loop s none).1.tracker = s.tracker := by
  simp [Theremin.loop]

/-- C7: `stop()` resets the session-visible readouts to the idle sentinel but
leaves both smoothing accumulators unchanged, and a `start()` immediately
after (whatever the outcome of the tracker steps) still leaves the
accumulators at their pre-`stop` values with the readouts still idle. -/
theorem Theremin.stop_start_preserves_smoother (s : ThereminState) :
    (Theremin.stop s).1.started = false ∧
    (Theremin.stop s).1.hands = 0 ∧
    (Theremin.stop s).1.freqDisp = none ∧
    (Theremin.stop s).1.midiDisp = none ∧
    (Theremin.stop s).1.gainPct = 0 ∧
    (Theremin.stop s).1.tracker.sx = s.tracker.sx ∧
    (Theremin.stop s).1.tracker.sy = s.tracker.sy ∧
    (∀ cameraOk landmarkerOk : Bool,
      (Theremin.start (Theremin.stop s).1 cameraOk landmarkerOk).1.tracker.sx
          = s.tracker.sx ∧
      (Theremin.start (Theremin.stop s).1 cameraOk landmarkerOk).1.tracker.sy
          = s.tracker.sy ∧
      (Theremin.start (Theremin.stop s).1 cameraOk landmarkerOk).1.freqDisp
          = none ∧
      (Theremin.start (Theremin.stop s).1 cameraOk landmarkerOk).1.midiDisp
          = none ∧
      (Theremin.start (Theremin.stop s).1 cameraOk landmarkerOk).1.gainPct
          = 0) := by
  refine ⟨rfl, rfl, rfl, rfl, rfl, rfl, rfl, ?_⟩
  intro cameraOk landmarkerOk
  cases cameraOk <;> cases landmarkerOk <;>
    simp [Theremin.start, Theremin.stop, HandTrackerService.stopCamera] <;>
    split_ifs <;> simp

/-- C8: if either tracker step of `start()` fails, the only user-visible
outcome is the alert: `started` is unchanged (so a Stopped loop stays
Stopped), the audio backend state is untouched (no activation, partial or
otherwise), no loop tick is scheduled, and no audio start is issued. -/
theorem Theremin.start_failure_spec (s : ThereminState) (cameraOk landmarkerOk : Bool)
    (h : cameraOk = false ∨ landmarkerOk = false) :
    (Theremin.start s cameraOk landmarkerOk).1.started = s.started ∧
    (Theremin.start s cameraOk landmarkerOk).1.audio = s.audio ∧
    ThereminAction.alertStartFailure ∈ (Theremin.start s cameraOk landmarkerOk).2 ∧
    ThereminAction.scheduleLoop ∉ (Theremin.start s cameraOk landmarkerOk).2 ∧
    (∀ w, ThereminAction.audioStart w ∉ (Theremin.start s cameraOk landmarkerOk).2) ∧
    (s.started = false →
      (Theremin.start s cameraOk landmarkerOk).1.started = false) := by
  have hcl : cameraOk = false ∨ (cameraOk = true ∧ landmarkerOk = false) := by
    rcases h with h | h
    · exact Or.inl h
    · cases cameraOk
      · exact Or.inl rfl
      · exact Or.inr ⟨rfl, h⟩
  rcases hcl with h1 | ⟨h1, h2⟩ <;> subst_vars <;> simp [Theremin.start]

/-- Witness for C8: starting from the initial component state with a failing
camera leaves the loop Stopped and shows the alert. -/
theorem Theremin.start_failure_spec_witness :
    Theremin.initState.started = false ∧
    (Theremin.start Theremin.initState false false).1.started = false ∧
    ThereminAction.alertStartFailure
      ∈ (Theremin.start Theremin.initState false false).2 :=
  ⟨rfl,
   (Theremin.start_failure_spec Theremin.initState false false
      (Or.inl rfl)).2.2.2.2.2 rfl,
   (Theremin.start_failure_spec Theremin.initState false false
      (Or.inl rfl)).2.2.1⟩

/-- Counterexample to C4: switching to `'web'` from the configuration where
the Strudel backend is active, the transition starts WebAudio *before*
stopping Strudel, so the state with both backends active is reached along
the switch. -/
theorem Theremin.modeSwitch_bothActive_counterexample :
    Backends.mk true true
      ∈ Backends.statesAlong ⟨false, true⟩ (Theremin.onAudioModeChange .web) ∧
    (Backends.mk true true).webActive = true ∧
    (Backends.mk true true).strudelActive = true := by
  decide

/-- C4 amended: switching to `'strudel'` deactivates WebAudio before starting
Strudel and, from any state where Strudel is not yet active, never visits a
both-active state; but switching to `'web'` starts WebAudio before stopping
Strudel, so from a Strudel-active state the both-active state is reachable. -/
theorem Theremin.modeSwitch_amended (b : Backends)
    (h : b.strudelActive = false) :
    Theremin.onAudioModeChange .strudel
      = [.publishMode .strudel, .audioStop, .strudelStart] ∧
    Theremin.onAudioModeChange .web
      = [.publishMode .web, .audioStart, .strudelStop] ∧
    (∀ c ∈ Backends.statesAlong b (Theremin.onAudioModeChange .strudel),
        ¬(c.webActive = true ∧ c.strudelActive = true)) ∧
    Backends.mk true true
      ∈ Backends.statesAlong ⟨false, true⟩ (Theremin.onAudioModeChange .web) := by
  refine ⟨rfl, rfl, ?_, by decide⟩
  intro c hc
  simp [Backends.statesAlong, Backends.apply, Theremin.onAudioModeChange] at hc
  rcases hc with h1 | h1 | h1 <;> subst h1 <;> simp [h]

/-- Witness for C4 (amended): from the WebAudio-active configuration, the
final state of the switch to `'strudel'` is not both-active. -/
theorem Theremin.modeSwitch_amended_witness :
    Backends.strudelActive ⟨true, false⟩ = false ∧
    ¬(Backends.webActive ⟨false, true⟩ = true ∧
      Backends.strudelActive ⟨false, true⟩ = true) :=
  ⟨rfl,
   (Theremin.modeSwitch_amended ⟨true, false⟩ rfl).2.2.1 ⟨false, true⟩
     (by decide)⟩
